import Mathlib

/-
Verification development for the training script
src/train_random_forest/run.py of the repository
nd0821-c2-build-model-workflow-starter.

The script is embedded shallowly:
- dates are modelled as integers (days since an arbitrary epoch), so the
  pandas day difference (d.max() - d).dt.days becomes integer subtraction;
- dataframes are association lists from column name to column payload;
- raw model importances are rational numbers (floating point values are
  modelled by rationals, which is exact for the list identities proved here);
- calls into pandas and scikit-learn are embedded by Lean functions that
  follow the documented behaviour of the exact calls the script makes
  (default arguments included), noted at each definition.
-/

/-- Errors that the embedded library calls can raise. The Python script has
no error type of its own: TypeError comes from keyword binding, ValueError
from the one-hot encoder, KeyError from dataframe column indexing. The
constructor configError stands for the ConfigError type that the natural
language specification postulates; no such type exists in the source. -/
inductive TrainError where
  | typeError (key : String)
  | configError (msg : String)
  | valueError (msg : String)
  | keyError (key : String)
deriving DecidableEq

/-- Maximum of an integer column, as pandas d.max() computes it on a
nonempty column. On the empty column the value is irrelevant (it is never
consumed by delta_date_feature, which maps over the rows). -/
def listMax : List Int → Int
  | [] => 0
  | x :: xs => xs.foldl max x

/-- Embedding of one column of delta_date_feature (run.py lines 29 to 35):
pandas evaluates (d.max() - d).dt.days per column, giving for every row the
day count between that row and the column maximum of the batch. -/
def deltaCol (col : List Int) : List Int :=
  col.map (fun d => listMax col - d)

/-- Embedding of delta_date_feature (run.py lines 29 to 35): the input is a
two dimensional batch of already parsed dates, handled column by column. -/
def delta_date_feature (dates : List (List Int)) : List (List Int) :=
  dates.map deltaCol

theorem le_foldl_max (xs : List Int) : ∀ a : Int, a ≤ xs.foldl max a := by
  induction xs with
  | nil => intro a; simp
  | cons y ys ih =>
    intro a
    calc a ≤ max a y := le_max_left a y
    _ ≤ ys.foldl max (max a y) := ih (max a y)

theorem mem_le_foldl_max (xs : List Int) :
    ∀ (a d : Int), d ∈ xs → d ≤ xs.foldl max a := by
  induction xs with
  | nil => intro a d h; cases h
  | cons y ys ih =>
    intro a d h
    rcases List.mem_cons.mp h with h1 | h2
    · subst h1
      calc d ≤ max a d := le_max_right a d
      _ ≤ ys.foldl max (max a d) := le_foldl_max ys (max a d)
    · exact ih (max a y) d h2

theorem le_listMax (col : List Int) (d : Int) (h : d ∈ col) : d ≤ listMax col := by
  cases col with
  | nil => cases h
  | cons x xs =>
    rcases List.mem_cons.mp h with h1 | h2
    · subst h1; exact le_foldl_max xs d
    · exact mem_le_foldl_max xs x d h2

theorem zip_self_map_mem {α β : Type} (f : α → β) (l : List α) (a : α) (b : β)
    (h : (a, b) ∈ l.zip (l.map f)) : b = f a ∧ a ∈ l := by
  induction l with
  | nil => cases h
  | cons x xs ih =>
    simp only [List.map_cons, List.zip_cons_cons, List.mem_cons, Prod.mk.injEq] at h
    rcases h with ⟨rfl, rfl⟩ | h2
    · exact ⟨rfl, by simp⟩
    · obtain ⟨hb, ha⟩ := ih h2
      exact ⟨hb, List.mem_cons_of_mem x ha⟩

/-- Claim C3: for every batch of parseable dates, and for each date column
independently, every row of the output of delta_date_feature equals the
number of days between that row and the maximum date of that column within
the batch; the rows holding the column maximum produce delta 0 and every
delta is non-negative. -/
theorem delta_date_feature_correct (dates : List (List Int))
    (col out : List Int) (h : (col, out) ∈ dates.zip (delta_date_feature dates)) :
    out = col.map (fun d => listMax col - d) ∧
    (∀ i : Nat, out[i]? = (col[i]?).map (fun d => listMax col - d)) ∧
    (∀ i : Nat, ∀ d : Int, col[i]? = some d → d = listMax col → out[i]? = some 0) ∧
    (∀ o ∈ out, 0 ≤ o) := by
  obtain ⟨hout, hcol⟩ := zip_self_map_mem deltaCol dates col out h
  subst hout
  refine ⟨rfl, ?_, ?_, ?_⟩
  · intro i
    simp [deltaCol]
  · intro i d hd hmax
    simp [deltaCol, hd, hmax]
  · intro o ho
    obtain ⟨d, hd, rfl⟩ := List.mem_map.mp ho
    have := le_listMax col d hd
    omega

/-- Witness for claim C3 on the concrete batch [[5, 3, 5]]: the membership
hypothesis holds and every output delta is non-negative. -/
theorem delta_date_feature_correct_witness :
    (((([5, 3, 5] : List Int)), (([0, 2, 0] : List Int))) ∈
      ([[5, 3, 5]] : List (List Int)).zip (delta_date_feature [[5, 3, 5]])) ∧
    (∀ o ∈ ([0, 2, 0] : List Int), 0 ≤ o) :=
  ⟨by decide,
   (delta_date_feature_correct [[5, 3, 5]] [5, 3, 5] [0, 2, 0] (by decide)).2.2.2⟩

/-- Claim C10: a batch holding exactly one row yields delta 0 whatever the
date is, because the per call reference maximum is that row itself; the same
date 0 placed next to a later date 5 yields delta 5, so a row's transformed
value depends on the other rows of the same transform call. -/
theorem delta_date_feature_single_row :
    (∀ d : Int, delta_date_feature [[d]] = [[0]]) ∧
    delta_date_feature [[0]] = [[0]] ∧
    delta_date_feature [[0, 5]] = [[5, 0]] := by
  refine ⟨?_, by decide, by decide⟩
  intro d
  simp [delta_date_feature, deltaCol, listMax]

/-- Column names of the composed feature matrix in plan order, as built at
run.py line 204: ordinal_categorical ++ non_ordinal_categorical ++
zero_imputed ++ [last_review, name]. -/
def processed_features : List String :=
  ["room_type", "neighbourhood_group", "minimum_nights", "number_of_reviews",
   "reviews_per_month", "calculated_host_listings_count", "availability_365",
   "longitude", "latitude", "last_review", "name"]

/-- Embedding of the reduction performed by plot_feature_importance (run.py
lines 135 to 139): the first (length of feat_names minus one) raw
importances are kept one to one, and all remaining raw importances are
summed into one final scalar for the text feature. -/
def reduceImportances (featNames : List String) (raw : List ℚ) : List ℚ :=
  raw.take (featNames.length - 1) ++ [(raw.drop (featNames.length - 1)).sum]

/-- Modelled from the spec: section 4.5 describes the Importance Reducer as
walking the feature groups in plan order, consuming output_width raw entries
per group and summing them into that group's scalar. This definition follows
the words of the specification and is compared against reduceImportances,
the reduction the source actually performs. -/
def specGroupwiseReduce : List Nat → List ℚ → List ℚ
  | [], _ => []
  | w :: ws, raw => (raw.take w).sum :: specGroupwiseReduce ws (raw.drop w)

/-- Per group output widths of the plan of run.py lines 193 to 202, in plan
order: ordinal group (1), one-hot group (k observed categories), the seven
zero imputed numeric columns (1 each), the date column (1), and the text
group (vectorizer width w). -/
def planWidths (k w : Nat) : List Nat :=
  [1, k, 1, 1, 1, 1, 1, 1, 1, 1, w]

/-- Counterexample to claim C1: with a one-hot group of width 2 and a text
group of width 1, the reduction of the source does not consume output_width
raw entries per group. On the raw vector with a single 1 in the second
one-hot column, the groupwise reduction of the specification credits the
one-hot feature with 1, while the source credits it with 0 and misreads the
remaining columns. -/
theorem reduceImportances_ne_groupwise :
    reduceImportances processed_features [0, 0, 1, 0, 0, 0, 0, 0, 0, 0, 0, 0] ≠
      specGroupwiseReduce (planWidths 2 1) [0, 0, 1, 0, 0, 0, 0, 0, 0, 0, 0, 0] := by
  simp [reduceImportances, specGroupwiseReduce, planWidths, processed_features]

theorem specGroupwiseReduce_ones (n w : Nat) :
    ∀ raw : List ℚ, raw.length = n + w →
      specGroupwiseReduce (List.replicate n 1 ++ [w]) raw =
        raw.take n ++ [(raw.drop n).sum] := by
  induction n with
  | zero =>
    intro raw hlen
    rw [List.replicate_zero, List.nil_append]
    have h2 : specGroupwiseReduce [w] raw = [(raw.take w).sum] := rfl
    rw [h2, List.take_of_length_le (by omega)]
    simp
  | succ m ih =>
    intro raw hlen
    cases raw with
    | nil => simp at hlen; omega
    | cons a rest =>
      have h1 : List.replicate (m + 1) 1 ++ [w] = 1 :: (List.replicate m 1 ++ [w]) := by
        rw [List.replicate_succ]; rfl
      rw [h1]
      have h2 : specGroupwiseReduce (1 :: (List.replicate m 1 ++ [w])) (a :: rest) =
          ((a :: rest).take 1).sum ::
            specGroupwiseReduce (List.replicate m 1 ++ [w]) ((a :: rest).drop 1) := rfl
      rw [h2]
      have h3 : rest.length = m + w := by simp at hlen; omega
      rw [List.drop_one, List.tail_cons, ih rest h3]
      simp

/-- Claim C1, amended: the reduction of the source keeps the first ten raw
entries one to one and sums the tail into the final scalar, which coincides
with the groupwise reduction of the specification exactly when every group
before the text group is one column wide, that is when the one-hot group saw
exactly one category; the counterexample shows the two reductions disagree
already at one-hot width 2. -/
theorem reduceImportances_eq_groupwise_of_width_one (w : Nat) (raw : List ℚ)
    (hlen : raw.length = 10 + w) :
    reduceImportances processed_features raw =
      specGroupwiseReduce (planWidths 1 w) raw := by
  have hplan : planWidths 1 w = List.replicate 10 1 ++ [w] := rfl
  rw [hplan, specGroupwiseReduce_ones 10 w raw hlen]
  rfl

/-- Witness for the amended claim C1 at text width 2 and a concrete raw
vector of length 12. -/
theorem reduceImportances_eq_groupwise_witness :
    (([1, 2, 3, 4, 5, 6, 7, 8, 9, 10, 11, 12] : List ℚ).length = 10 + 2) ∧
    reduceImportances processed_features [1, 2, 3, 4, 5, 6, 7, 8, 9, 10, 11, 12] =
      specGroupwiseReduce (planWidths 1 2) [1, 2, 3, 4, 5, 6, 7, 8, 9, 10, 11, 12] :=
  ⟨by decide,
   reduceImportances_eq_groupwise_of_width_one 2
     [1, 2, 3, 4, 5, 6, 7, 8, 9, 10, 11, 12] (by decide)⟩

/-- Claim C2: conservation law. The sum of the semantic importance vector
produced by the reduction of plot_feature_importance equals the sum of the
raw importance vector, for every raw vector. -/
theorem reduceImportances_sum (raw : List ℚ) :
    (reduceImportances processed_features raw).sum = raw.sum := by
  simp only [reduceImportances, List.sum_append, List.sum_cons, List.sum_nil, add_zero]
  exact List.sum_take_add_sum_drop raw _

/-- Observed (non missing) values of a categorical column; a missing value
is None in the pandas column and none here. -/
def observedValues (xs : List (Option String)) : List String :=
  xs.filterMap id

/-- Number of occurrences of an observed value in the column. -/
def countVal (xs : List (Option String)) (v : String) : Nat :=
  (observedValues xs).count v

/-- Choice step of the most frequent value: the challenger c replaces the
current best b when it is strictly more frequent, or equally frequent and
smaller (SimpleImputer with strategy most_frequent keeps the smallest of the
tied most frequent values); the string order is the lexicographic order on
the character data, which is the order of String.lt. -/
def better (cnt : String → Nat) (b c : String) : String :=
  if cnt c > cnt b ∨ (cnt c = cnt b ∧ c.data < b.data) then c else b

/-- Embedding of the fit of SimpleImputer(strategy = most_frequent) at
run.py line 159: the statistic is the most frequent observed value of the
training column, none when the column is entirely missing. -/
def mostFrequent (xs : List (Option String)) : Option String :=
  match observedValues xs with
  | [] => none
  | v :: vs => some (vs.foldl (better (countVal xs)) v)

/-- Embedding of the transform of SimpleImputer(strategy = most_frequent):
every missing entry is replaced by the fitted most frequent value; a column
with no observed value at all is dropped by SimpleImputer, giving the empty
output. -/
def imputeMostFrequent (xs : List (Option String)) : List String :=
  match mostFrequent xs with
  | none => []
  | some m => xs.map (fun o => o.getD m)

/-- Embedding of the fit of OneHotEncoder() at run.py line 159: the fitted
categories are the sorted distinct values of the (already imputed) training
column, one output column per category. -/
def fitCategories (xs : List (Option String)) : List String :=
  (imputeMostFrequent xs).toFinset.sort (fun a b => a ≤ b)

/-- Sorted distinct observed categories of the raw training column. -/
def observedCategories (xs : List (Option String)) : List String :=
  (observedValues xs).toFinset.sort (fun a b => a ≤ b)

theorem foldl_better_mem (cnt : String → Nat) :
    ∀ (vs : List String) (b : String),
      vs.foldl (better cnt) b = b ∨ vs.foldl (better cnt) b ∈ vs := by
  intro vs
  induction vs with
  | nil => intro b; left; rfl
  | cons v vs ih =>
    intro b
    rcases ih (better cnt b v) with h | h
    · rw [List.foldl_cons, h]
      unfold better
      split
      · right; exact List.mem_cons_self v vs
      · left; rfl
    · right
      rw [List.foldl_cons]
      exact List.mem_cons_of_mem v h

theorem mostFrequent_mem (xs : List (Option String))
    (h : observedValues xs ≠ []) :
    ∃ m, mostFrequent xs = some m ∧ m ∈ observedValues xs := by
  unfold mostFrequent
  cases hobs : observedValues xs with
  | nil => exact absurd hobs h
  | cons v vs =>
    refine ⟨vs.foldl (better (countVal xs)) v, rfl, ?_⟩
    rcases foldl_better_mem (countVal xs) vs v with h1 | h1
    · rw [h1]; exact List.mem_cons_self v vs
    · exact List.mem_cons_of_mem v h1

theorem imputeMostFrequent_toFinset (xs : List (Option String))
    (h : observedValues xs ≠ []) :
    (imputeMostFrequent xs).toFinset = (observedValues xs).toFinset := by
  obtain ⟨m, hm, hmem⟩ := mostFrequent_mem xs h
  unfold imputeMostFrequent
  rw [hm]
  ext v
  simp only [List.mem_toFinset, List.mem_map, observedValues, List.mem_filterMap, id_eq,
    exists_eq_right] at *
  constructor
  · rintro ⟨o, ho, rfl⟩
    cases o with
    | none => exact hmem
    | some w => exact ho
  · intro hv
    exact ⟨some v, hv, rfl⟩

/-- Claim C4: fitting the imputed one-hot group on a training column with at
least one observed value first replaces missing entries by the most frequent
observed category and then produces exactly one output column per distinct
observed category: the fitted categories are exactly the sorted distinct
observed categories, the output width equals their number k, and repeated
fits on the same training data produce the same category to column
mapping. -/
theorem onehot_fit_width (xs : List (Option String))
    (h : observedValues xs ≠ []) :
    fitCategories xs = observedCategories xs ∧
    (fitCategories xs).length = (observedCategories xs).length ∧
    (∀ ys : List (Option String), ys = xs → fitCategories ys = fitCategories xs) := by
  have hfin := imputeMostFrequent_toFinset xs h
  refine ⟨?_, ?_, ?_⟩
  · unfold fitCategories observedCategories
    rw [hfin]
  · unfold fitCategories observedCategories
    rw [hfin]
  · intro ys hy
    rw [hy]

/-- Witness for claim C4 on the concrete training column
[some b, none, some a, some b]: the column has observed values, and the
fitted categories coincide with the sorted distinct observed categories. -/
theorem onehot_fit_width_witness :
    observedValues [some "b", none, some "a", some "b"] ≠ [] ∧
    fitCategories [some "b", none, some "a", some "b"] =
      observedCategories [some "b", none, some "a", some "b"] :=
  ⟨by decide,
   (onehot_fit_width [some "b", none, some "a", some "b"] (by decide)).1⟩

/-- One row of the one-hot encoding: one binary column per fitted category,
in the order of the fitted category list. -/
def oneHotRow (cats : List String) (v : String) : List Int :=
  cats.map (fun c => if c = v then 1 else 0)

/-- Embedding of the transform of OneHotEncoder() (run.py line 159) with its
default handle_unknown = error: when every value of the batch is a fitted
category the encoded matrix is returned, otherwise the encoder raises
ValueError. -/
def oneHotTransform (cats : List String) (vs : List String) :
    Except TrainError (List (List Int)) :=
  if vs.all (fun v => cats.contains v) then
    Except.ok (vs.map (oneHotRow cats))
  else
    Except.error (TrainError.valueError "Found unknown categories")

/-- Fitted non ordinal categorical pipeline of run.py lines 158 to 159
applied to new data: most frequent imputation fit on the training column,
then one-hot transform with the categories fitted on the training column. -/
def nonOrdinalTransform (train : List (Option String)) (vs : List String) :
    Except TrainError (List (List Int)) :=
  oneHotTransform (fitCategories train) vs

/-- Counterexample to claim C7: the pipeline of run.py lines 158 to 159 is
SimpleImputer followed by OneHotEncoder() with its default handle_unknown =
error. Fit on a training column with categories A and B, transforming the
batch that holds the category C raises ValueError instead of mapping C to a
designated unknown encoding. -/
theorem onehot_unknown_category_raises :
    nonOrdinalTransform [some "A", some "B"] ["C"] =
      Except.error (TrainError.valueError "Found unknown categories") := by
  have himp : imputeMostFrequent [some "A", some "B"] = ["A", "B"] := by decide
  have hnotmem : "C" ∉ fitCategories [some "A", some "B"] := by
    unfold fitCategories
    rw [himp]
    rw [Finset.mem_sort]
    decide
  unfold nonOrdinalTransform oneHotTransform
  rw [if_neg]
  intro hall
  rw [List.all_cons, List.all_nil, Bool.and_true] at hall
  exact hnotmem (by simpa using hall)

/-- Claim C7, amended: at transform time the fitted one-hot encoder raises
ValueError on a batch holding any category absent from the fitted category
list (OneHotEncoder default handle_unknown = error), rather than mapping it
to an unknown encoding; on a batch of fitted categories only, the transform
succeeds and every output row has exactly one column per fitted category, so
transform calls never change the fitted width. -/
theorem oneHotTransform_spec (cats : List String) (vs : List String) :
    ((∃ v ∈ vs, v ∉ cats) →
      oneHotTransform cats vs =
        Except.error (TrainError.valueError "Found unknown categories")) ∧
    ((∀ v ∈ vs, v ∈ cats) →
      oneHotTransform cats vs = Except.ok (vs.map (oneHotRow cats)) ∧
      ∀ r ∈ vs.map (oneHotRow cats), r.length = cats.length) := by
  constructor
  · rintro ⟨v, hv, hnot⟩
    unfold oneHotTransform
    rw [if_neg]
    intro hall
    rw [List.all_eq_true] at hall
    exact hnot (by simpa using hall v hv)
  · intro hall
    constructor
    · unfold oneHotTransform
      rw [if_pos]
      rw [List.all_eq_true]
      intro v hv
      simpa using hall v hv
    · intro r hr
      obtain ⟨v, hv, rfl⟩ := List.mem_map.mp hr
      simp [oneHotRow]

/-- Witness for the amended claim C7: every value of the batch [A] is a
fitted category of [A, B], and the transform succeeds with rows of width
2. -/
theorem oneHotTransform_spec_witness :
    (∀ v ∈ (["A"] : List String), v ∈ (["A", "B"] : List String)) ∧
    (oneHotTransform ["A", "B"] ["A"] =
        Except.ok ((["A"] : List String).map (oneHotRow ["A", "B"])) ∧
      ∀ r ∈ (["A"] : List String).map (oneHotRow ["A", "B"]),
        r.length = (["A", "B"] : List String).length) :=
  ⟨by decide, (oneHotTransform_spec ["A", "B"] ["A"]).2 (by decide)⟩

/-- Keyword parameters of the scikit-learn RandomForestRegressor
constructor: the keywords that the call RandomForestRegressor(**rf_config)
at run.py line 207 can bind. -/
def rfParamNames : List String :=
  ["n_estimators", "criterion", "max_depth", "min_samples_split",
   "min_samples_leaf", "min_weight_fraction_leaf", "max_features",
   "max_leaf_nodes", "min_impurity_decrease", "bootstrap", "oob_score",
   "n_jobs", "random_state", "verbose", "warm_start", "ccp_alpha",
   "max_samples"]

/-- Embedding of RandomForestRegressor(**rf_config) at run.py line 207 under
Python keyword binding: a key of the mapping that is not a constructor
keyword makes the call itself raise TypeError (unexpected keyword argument);
otherwise the estimator is constructed carrying the configuration. The
source performs no validation of its own before this call. -/
def constructRF (cfg : List (String × Int)) : Except TrainError (List (String × Int)) :=
  match cfg.find? (fun kv => !(rfParamNames.contains kv.1)) with
  | some kv => Except.error (TrainError.typeError kv.1)
  | none => Except.ok cfg

/-- Counterexample to claim C6: on the configuration holding the single
unrecognized key bogus_param, construction fails with TypeError raised by
Python keyword binding at the constructor call itself, and there is no
ConfigError from an allow list validation performed before construction. -/
theorem constructRF_unknown_key_not_configError :
    constructRF [("bogus_param", 1)] =
      Except.error (TrainError.typeError "bogus_param") ∧
    ¬ ∃ msg, constructRF [("bogus_param", 1)] =
      Except.error (TrainError.configError msg) := by
  constructor
  · rfl
  · rintro ⟨msg, hmsg⟩
    rw [show constructRF [("bogus_param", 1)] =
        Except.error (TrainError.typeError "bogus_param") from rfl] at hmsg
    injection hmsg with h2
    exact TrainError.noConfusion h2

/-- Claim C6, amended: a configuration mapping holding any key that is not a
recognized estimator parameter makes estimator construction fail with a
TypeError from Python keyword binding at the constructor call (not with a
ConfigError from a prior allow list validation, which the source does not
have); unrecognized keys are never silently ignored. -/
theorem constructRF_rejects_unknown (cfg : List (String × Int)) (k : String)
    (v : Int) (hmem : (k, v) ∈ cfg) (hk : rfParamNames.contains k = false) :
    ∃ bad, constructRF cfg = Except.error (TrainError.typeError bad) ∧
      rfParamNames.contains bad = false := by
  unfold constructRF
  cases hfind : cfg.find? (fun kv => !(rfParamNames.contains kv.1)) with
  | none =>
    have hnone := List.find?_eq_none.mp hfind (k, v) hmem
    rw [hk] at hnone
    simp at hnone
  | some kv =>
    have hp := List.find?_some hfind
    rw [Bool.not_eq_true'] at hp
    exact ⟨kv.1, rfl, hp⟩

/-- Witness for the amended claim C6 on a configuration holding a recognized
key and the unrecognized key bogus_param. -/
theorem constructRF_rejects_unknown_witness :
    (("bogus_param", (1 : Int)) ∈
      [("n_estimators", (100 : Int)), ("bogus_param", 1)]) ∧
    (rfParamNames.contains "bogus_param" = false) ∧
    (∃ bad, constructRF [("n_estimators", (100 : Int)), ("bogus_param", 1)] =
        Except.error (TrainError.typeError bad) ∧
      rfParamNames.contains bad = false) :=
  ⟨by decide, by decide,
   constructRF_rejects_unknown [("n_estimators", 100), ("bogus_param", 1)]
     "bogus_param" 1 (by decide) (by decide)⟩

/-- Embedding of the Python dict assignment at run.py line 53,
rf_config[random_state] = args.random_seed: the binding of the key is
replaced when it exists and appended otherwise. -/
def setKey : List (String × Int) → String → Int → List (String × Int)
  | [], k, v => [(k, v)]
  | kv :: rest, k, v =>
    if kv.1 = k then (k, v) :: rest else kv :: setKey rest k v

/-- Python dict lookup on the association list model. -/
def lookupKey (cfg : List (String × Int)) (k : String) : Option Int :=
  (cfg.find? (fun kv => kv.1 == k)).map (fun kv => kv.2)

/-- Claim C9: after the assignment of run.py line 53 the configuration binds
random_state to the random seed of the run, for every incoming configuration
mapping, including one that already held a random_state entry, whose value
is silently overwritten; random_state is a recognized constructor keyword,
so the injected entry never makes construction fail. -/
theorem setKey_random_state (cfg : List (String × Int)) (seed : Int) :
    lookupKey (setKey cfg "random_state" seed) "random_state" = some seed ∧
    rfParamNames.contains "random_state" = true := by
  refine ⟨?_, by decide⟩
  induction cfg with
  | nil => simp [setKey, lookupKey]
  | cons kv rest ih =>
    by_cases hk : kv.1 = "random_state"
    · simp [setKey, hk, lookupKey]
    · unfold setKey
      rw [if_neg hk]
      unfold lookupKey
      rw [List.find?_cons_of_neg]
      · exact ih
      · simp [hk]

/-- Source of randomness handed to a library call: either an explicit
random_state value, as the script supplies at run.py lines 53 and 72, or the
ambient global generator, which a call would fall back to if no random_state
were passed. -/
inductive RandomSource where
  | explicit (seed : Int)
  | ambient

/-- Resolution of a randomness source against the ambient generator state:
an explicit random_state ignores the ambient state, the ambient source
consumes it. -/
def resolveSeed : RandomSource → Int → Int
  | RandomSource.explicit s, _ => s
  | RandomSource.ambient, g => g

/-- The library calls of the training sequence, modelled as deterministic
functions of their arguments including the resolved random_state, which is
the documented contract of sklearn train_test_split and of
RandomForestRegressor for a fixed random_state: the first component splits a
dataset into train and validation given a resolved seed, the second fits the
estimator under a configuration on the split and returns the pair of the r2
and mae metrics (modelled as rationals). -/
structure SkLearnStack where
  trainTestSplit : Int → List (List Int) → List (List Int) × List (List Int)
  fitAndScore : List (String × Int) → List (List Int) × List (List Int) → ℚ × ℚ

/-- Embedding of the metric producing core of go (run.py lines 42 to 93):
line 53 injects the run seed into the estimator configuration, lines 71 to
73 split with random_state equal to the same seed, and the fitted estimator
is scored on the validation fold. Both randomized steps receive the explicit
seed, so the ambient generator state is threaded but never consumed. -/
def goMetrics (lib : SkLearnStack) (data : List (List Int))
    (rfConfig : List (String × Int)) (seed : Int) (ambientState : Int) : ℚ × ℚ :=
  lib.fitAndScore (setKey rfConfig "random_state" seed)
    (lib.trainTestSplit (resolveSeed (RandomSource.explicit seed) ambientState) data)

/-- Claim C5: determinism of the training sequence. For a fixed input
dataset, fixed configuration and fixed seed, two runs of goMetrics agree on
the r2 and mae metrics whatever the ambient generator states of the two runs
are, because the seed fixes both the split and the estimator randomness; in
particular running the sequence twice yields identical metrics. -/
theorem goMetrics_deterministic (lib : SkLearnStack) (data : List (List Int))
    (rfConfig : List (String × Int)) (seed : Int) (g1 g2 : Int) :
    goMetrics lib data rfConfig seed g1 = goMetrics lib data rfConfig seed g2 :=
  rfl

/-- Embedding of pandas dataframe column selection X[c]: the column payload
when a column of that name exists, KeyError otherwise. -/
def dfGetCol (df : List (String × List Int)) (c : String) :
    Except TrainError (List Int) :=
  match df.find? (fun kv => kv.1 == c) with
  | some kv => Except.ok kv.2
  | none => Except.error (TrainError.keyError c)

/-- Embedding of the stratify argument evaluated at run.py line 72: the
script passes X[args.stratify_by] to train_test_split unconditionally, with
no special case for the default value none of the stratify_by option. -/
def stratifySeries (df : List (String × List Int)) (stratifyBy : String) :
    Except TrainError (List Int) :=
  dfGetCol df stratifyBy

/-- The feature columns the external interface declares for the input
dataset, after the price target is removed; no column is called none. -/
def schemaDf : List (String × List Int) :=
  processed_features.map (fun c => (c, [0]))

/-- Counterexample to claim C8: on a dataset holding exactly the declared
feature columns, the designated no stratification sentinel none is looked up
as a column name and raises KeyError at run.py line 72, so the split does
not succeed without stratification; an existing column name such as
room_type is accepted. -/
theorem stratify_none_raises_keyerror :
    stratifySeries schemaDf "none" = Except.error (TrainError.keyError "none") ∧
    stratifySeries schemaDf "room_type" = Except.ok [0] := by
  constructor
  · rfl
  · rfl

/-- Claim C8, amended: stratify_by is always interpreted as a column name at
run.py line 72; when it names an existing column the column is handed to the
split as the stratification series, and when no column of that name exists,
in particular for the default sentinel none on the declared schema, the
lookup raises KeyError and the split is never performed, so no sentinel for
switching stratification off is recognized. -/
theorem stratifySeries_lookup (df : List (String × List Int)) (c : String) :
    ((df.find? (fun kv => kv.1 == c)).isSome →
      ∃ s, stratifySeries df c = Except.ok s) ∧
    (df.find? (fun kv => kv.1 == c) = none →
      stratifySeries df c = Except.error (TrainError.keyError c)) := by
  constructor
  · intro hsome
    unfold stratifySeries dfGetCol
    cases hfind : df.find? (fun kv => kv.1 == c) with
    | none => rw [hfind] at hsome; simp at hsome
    | some kv => exact ⟨kv.2, rfl⟩
  · intro hnone
    unfold stratifySeries dfGetCol
    rw [hnone]

/-- Witness for the amended claim C8: on the declared schema there is no
column called none, and the lookup of the stratification series fails with
KeyError. -/
theorem stratifySeries_lookup_witness :
    (schemaDf.find? (fun kv => kv.1 == "none") = none) ∧
    stratifySeries schemaDf "none" = Except.error (TrainError.keyError "none") :=
  ⟨by decide, (stratifySeries_lookup schemaDf "none").2 (by decide)⟩
